import Mathlib

/-!
# Verification of the robot-search backend result pipeline

Shallow embedding of `src/server.js` (an Express server aggregating GitHub
and Hugging Face search results).  The file `server.js` holds several
variants of the same server separated by document markers:

* variant A (lines 1-151): basic `/api/search` handler;
* variant B (lines 153-375): adds `POST /api/smart-search` (Gemini) and
  growth-window sort branches in the upstream query;
* variant C (lines 377-584): adds a `robotType` category parameter that is
  injected into the upstream query string by `getSearchQuery`.

JavaScript values that may be `undefined` are embedded as `Option`;
JS truthiness of numbers (`0` and `undefined` falsy) and of strings
(`""` and `undefined` falsy) is modelled explicitly at each use site.
External collaborators (the Fuse.js fuzzy searcher, the Gemini text
collaborator, the HTTP self-call of smart-search) are inputs of the
embedded handlers; the fuzzy collaborator, whose code is not part of the
repository, additionally gets a concrete executable model (`fuseModel`).
-/

namespace RobotSearch

/-! ### Character-level string helpers

Executable (kernel-reducible) models of the JavaScript string operations
the server uses: `toLowerCase` (inside Fuse.js), `split(',')`/`split(' ')`,
`join(',')`, and `trim`.  All strings involved are ASCII apart from the
Chinese message literals, which are never lowercased or trimmed. -/

/-- ASCII lowercasing of one character (JS `toLowerCase` on ASCII). -/
def lowerChar (c : Char) : Char :=
  if 'A' ≤ c ∧ c ≤ 'Z' then Char.ofNat (c.toNat + 32) else c

/-- ASCII lowercasing of a string. -/
def lowerStr (s : String) : String :=
  ⟨s.data.map lowerChar⟩

/-- Split a character list at every occurrence of `sep`
(JS `split` with a one-character separator, as the server always uses). -/
def splitCharsAux (sep : Char) : List Char → List Char → List (List Char)
  | [], acc => [acc.reverse]
  | c :: cs, acc =>
      if c = sep then acc.reverse :: splitCharsAux sep cs []
      else splitCharsAux sep cs (c :: acc)

/-- JS `s.split(sep)` for a one-character separator. -/
def splitOnChar (sep : Char) (s : String) : List String :=
  (splitCharsAux sep s.data []).map fun l => ⟨l⟩

/-- JS `array.join(sep)`. -/
def joinWith (sep : String) : List String → String
  | [] => ""
  | x :: xs => xs.foldl (fun acc y => acc ++ sep ++ y) x

/-- The whitespace characters relevant here (the trimmed strings are built
from ASCII code literals and the user query). -/
def isSpaceChar (c : Char) : Bool :=
  c = ' ' ∨ c = '\t' ∨ c = '\n' ∨ c = '\r'

/-- JS `s.trim()` (on the ASCII whitespace the server can produce). -/
def trimStr (s : String) : String :=
  ⟨((s.data.dropWhile isSpaceChar).reverse.dropWhile isSpaceChar).reverse⟩

/-- Whether `needle` occurs as a contiguous substring of `hay`. -/
def containsSub : List Char → List Char → Bool
  | [], needle => needle.isEmpty
  | c :: rest, needle => needle.isPrefixOf (c :: rest) || containsSub rest needle

/-- Case-insensitive substring test, used to state category-keyword
matching. -/
def strContainsCI (hay needle : String) : Bool :=
  containsSub (lowerStr hay).data (lowerStr needle).data

/-- A JS id value: GitHub ids are numbers, Hugging Face ids are strings. -/
inductive JId where
  | num (n : Nat)
  | str (s : String)
deriving DecidableEq, Repr

/-- The unified record produced by the two normalizers in `server.js`.
Fields that a JS object may hold as `undefined` (or not hold at all, such
as `downloads` on a GitHub record) are `Option`s. -/
structure Project where
  id : Option JId
  name : Option String
  description : Option String
  url : Option String
  source : String
  tags : List String
  stars : Option Nat := none
  downloads : Option Nat := none
deriving DecidableEq, Repr

/-- Raw GitHub API item, with exactly the fields `standardizeGithubProject`
reads (`server.js` lines 24-32).  Every field may be absent. -/
structure GithubRaw where
  id : Option Nat := none
  full_name : Option String := none
  description : Option String := none
  html_url : Option String := none
  topics : Option (List String) := none
  stargazers_count : Option Nat := none
deriving DecidableEq, Repr

/-- Raw Hugging Face API item, with exactly the fields
`standardizeHuggingFaceModel` reads (`server.js` lines 39-47). -/
structure HFRaw where
  id : Option String := none
  modelId : Option String := none
  pipeline_tag : Option String := none
  tags : Option (List String) := none
  downloads : Option Nat := none
deriving DecidableEq, Repr

/-- `standardizeGithubProject` (`server.js` lines 24-32):
`tags: item.topics || []` defaults, all other fields are passed through
unchanged (`description` and `stargazers_count` are NOT defaulted). -/
def standardizeGithubProject (item : GithubRaw) : Project :=
  { id := item.id.map JId.num
    name := item.full_name
    description := item.description
    url := item.html_url
    source := "GitHub"
    tags := item.topics.getD []
    stars := item.stargazers_count
    downloads := none }

/-- `standardizeHuggingFaceModel` (`server.js` lines 39-47):
`url` is the template string `https://huggingface.co/${item.modelId}`
(rendering `undefined` when `modelId` is absent), `tags: item.tags || []`
defaults; `pipeline_tag` (the description) and `downloads` pass through. -/
def standardizeHuggingFaceModel (item : HFRaw) : Project :=
  { id := item.id.map JId.str
    name := item.modelId
    description := item.pipeline_tag
    url := some ("https://huggingface.co/" ++
      (match item.modelId with | some s => s | none => "undefined"))
    source := "Hugging Face"
    tags := item.tags.getD []
    stars := none
    downloads := item.downloads }

/-- JS `x || y` on an optional number: `undefined` and `0` are falsy. -/
def numOr (x : Option Nat) (y : Nat) : Nat :=
  match x with
  | some (n + 1) => n + 1
  | _ => y

/-- The popularity score used by every final sort in `server.js`:
`a.stars || a.downloads || 0`. -/
def score (p : Project) : Nat :=
  numOr p.stars (numOr p.downloads 0)

/-- The order realised by the comparator `(a, b) => scoreB - scoreA`:
`a` may come before `b` exactly when `score b ≤ score a`. -/
def scoreGE (a b : Project) : Prop :=
  score b ≤ score a

instance : DecidableRel scoreGE := fun _ _ => Nat.decLe _ _

instance : IsTotal Project scoreGE := ⟨fun a b => Nat.le_total (score b) (score a)⟩

instance : IsTrans Project scoreGE := ⟨fun _ _ _ h h' => Nat.le_trans h' h⟩

/-- `finalResults.sort((a, b) => scoreB - scoreA)`: the JS array sort is
stable, so its result is the stable descending sort by `score`, which the
insertion sort with `scoreGE` computes. -/
def sortByScore (l : List Project) : List Project :=
  List.insertionSort scoreGE l

/-- Variant A's sort step (`server.js` lines 128-143): the `sort === 'growth'`
branch and the default branch carry the identical comparator. -/
def sortResultsA (sort : Option String) (l : List Project) : List Project :=
  if sort = some "growth" then sortByScore l else sortByScore l

/-- The fuzzy step (`if (query) { finalResults = fuse.search(query)... }`):
skipped when `query` is absent or the empty string (JS falsy), otherwise
the external fuzzy collaborator `fuzzy` produces the new list. -/
def fuzzyStep (fuzzy : String → List Project → List Project)
    (query : Option String) (l : List Project) : List Project :=
  match query with
  | some q => if q = "" then l else fuzzy q l
  | none => l

/-- The tag filter (`server.js` lines 121-126 / 302-307 / 564-569):
`if (tags && tags.length > 0)` then keep projects with
`project.tags.some(tag => tags.split(',').includes(tag))` —
`includes` compares by exact string equality. -/
def tagStep (tags : Option String) (l : List Project) : List Project :=
  match tags with
  | some t =>
      if t = "" then l
      else l.filter fun p => p.tags.any fun tag => (splitOnChar ',' t).contains tag
  | none => l

/-- The post-fetch pipeline shared by the variants: fuzzy step, tag filter,
final sort (with variant A's branch structure, which variants B and C
specialise by never branching). -/
def postFetch (fuzzy : String → List Project → List Project)
    (query tags sort : Option String) (l : List Project) : List Project :=
  sortResultsA sort (tagStep tags (fuzzyStep fuzzy query l))

/-- The two upstream sources. -/
inductive Source where
  | github
  | huggingFace
deriving DecidableEq, Repr

/-- The fetches the handler issues, from the two guards
`source === 'All' || source === 'GitHub'` and
`source === 'All' || source === 'Hugging Face'`. -/
def enabledSources (source : Option String) : List Source :=
  (if source = some "All" ∨ source = some "GitHub" then [Source.github] else []) ++
  (if source = some "All" ∨ source = some "Hugging Face" then [Source.huggingFace] else [])

/-- The accumulated `allResults` once every fetch promise has settled.
`gh`/`hf` are the fetch outcomes (`none` models a rejected request, whose
`.catch` only logs, contributing nothing).  A disabled source contributes
nothing because its promise is never pushed. -/
def mergedResults (source : Option String)
    (gh : Option (List GithubRaw)) (hf : Option (List HFRaw)) : List Project :=
  (if source = some "All" ∨ source = some "GitHub" then
    (gh.getD []).map standardizeGithubProject else []) ++
  (if source = some "All" ∨ source = some "Hugging Face" then
    (hf.getD []).map standardizeHuggingFaceModel else [])

/-- The `GET /api/search` handler (variants A and B; variant C's response is
`searchHandlerC`):  merge the settled fetches, run the post-fetch pipeline,
respond `res.json(finalResults)` — status 200 in every case. -/
def searchHandler (fuzzy : String → List Project → List Project)
    (gh : Option (List GithubRaw)) (hf : Option (List HFRaw))
    (query source tags sort : Option String) : Nat × List Project :=
  (200, postFetch fuzzy query tags sort (mergedResults source gh hf))

/-- The keyword suffix the `switch (robotType)` of variant C's
`getSearchQuery` appends (`server.js` lines 453-483); the default case
appends nothing. -/
def categorySuffix (robotType : String) : String :=
  if robotType = "人型机器人" then " humanoid OR bipedal"
  else if robotType = "移动机器人" then " mobile-robot OR agv OR navigation"
  else if robotType = "机械臂" then " robotic-arm OR manipulator OR end-effector"
  else if robotType = "足式机器人" then " legged-robot OR quadrupedal OR hexapod"
  else if robotType = "灵巧手" then " dexterous-hand OR gripper"
  else if robotType = "桌面机器人" then " desktop-robot OR tiny-robot"
  else if robotType = "宠物机器人" then " pet-robot OR companion-robot"
  else if robotType = "教育机器人" then " educational-robot OR teaching-robot"
  else ""

/-- Variant C's `getSearchQuery` (`server.js` lines 449-487):
`${baseQuery || ''}` plus the robot-type keywords (`if (robotType)` — the
empty string is falsy, and also hits the switch default, appending nothing
either way), always followed by `' robotics'`, then trimmed. -/
def getSearchQuery (robotType : Option String) (baseQuery : Option String) : String :=
  let base := match baseQuery with | some s => s | none => ""
  let withCat := base ++ (match robotType with
    | some rt => categorySuffix rt
    | none => "")
  trimStr (withCat ++ " robotics")

/-- Variant C's handler (`server.js` lines 439-579), returning the two
upstream query strings it would send (GitHub `q` with the growth window
appended, Hugging Face `search`) together with the HTTP response.
`robotType` reaches only the upstream strings: the post-fetch pipeline
(lines 544-578) never reads it. -/
def searchHandlerC (fuzzy : String → List Project → List Project)
    (gh : Option (List GithubRaw)) (hf : Option (List HFRaw))
    (query source tags sort robotType : Option String)
    (date7 date30 : String) : (String × String) × (Nat × List Project) :=
  let base := getSearchQuery robotType query
  let githubQ :=
    if sort = some "growth_week" then base ++ " pushed:>" ++ date7
    else if sort = some "growth_month" then base ++ " pushed:>" ++ date30
    else base
  ((githubQ, base),
   (200, sortByScore (tagStep tags (fuzzyStep fuzzy query (mergedResults source gh hf)))))

/-- Levenshtein edit distance between two character lists (insert, delete,
substitute, unit costs), with an explicit fuel argument so that the
recursion is structural; every recursive call shrinks `xs.length + ys.length`,
so fuel `xs.length + ys.length` is never exhausted. -/
def editDistFuel : Nat → List Char → List Char → Nat
  | 0, xs, ys => xs.length + ys.length
  | _ + 1, [], ys => ys.length
  | _ + 1, x :: xs, [] => (x :: xs).length
  | f + 1, x :: xs, y :: ys =>
      if x = y then editDistFuel f xs ys
      else 1 + min (editDistFuel f xs (y :: ys))
        (min (editDistFuel f (x :: xs) ys) (editDistFuel f xs ys))

/-- Levenshtein edit distance between two character lists. -/
def editDist (xs ys : List Char) : Nat :=
  editDistFuel (xs.length + ys.length) xs ys

/-- The fields Fuse.js is configured to index:
`keys: ['name', 'description', 'tags']`. -/
def searchFields (p : Project) : List String :=
  (match p.name with | some n => [n] | none => []) ++
  (match p.description with | some d => [d] | none => []) ++
  p.tags

/-- Modelled from the spec: the Relevance Engine's per-item match quality
(§4.5) — the Fuse.js collaborator's code is not part of the repository.
Case-insensitive edit distance of the query against each indexed field,
admitted when the relative distance stays within the fixed permissiveness
threshold 0.4 (`10 * d ≤ 4 * |query|`), taking the best (least) admitted
distance; `none` means no field matches. -/
def matchScore (query : String) (p : Project) : Option Nat :=
  ((searchFields p).filterMap fun f =>
    let d := editDist (lowerStr query).data (lowerStr f).data
    if 10 * d ≤ 4 * query.length then some d else none).min?

/-- Modelled from the spec: the Relevance Engine (§4.5) standing in for the
external `fuse.search` call — keep the items that match, ordered by match
quality (best first, stably). -/
def fuseModel (query : String) (l : List Project) : List Project :=
  (List.insertionSort (fun a b : Nat × Project => a.1 ≤ b.1)
    (l.filterMap fun p => (matchScore query p).map fun s => (s, p))).map (·.2)

/-- The outcome of `POST /api/smart-search`: `res.status(400).json({error})`,
`res.status(500).json({error})`, or `res.json({keywords, results})`. -/
inductive SmartOut where
  | badRequest (error : String)
  | failure (error : String)
  | success (keywords : String) (results : List Project)
deriving DecidableEq, Repr

/-- The HTTP status each exit of the smart-search handler carries
(`res.json` without `res.status` responds 200). -/
def SmartOut.statusCode : SmartOut → Nat
  | .badRequest _ => 400
  | .failure _ => 500
  | .success _ _ => 200

/-- The field names of the object literal each exit passes to `res.json`:
`{ error }` for the 400 and 500 exits, `{ keywords, results }` for the
success exit (`server.js` line 363). -/
def SmartOut.bodyKeys : SmartOut → List String
  | .badRequest _ => ["error"]
  | .failure _ => ["error"]
  | .success _ _ => ["keywords", "results"]

/-- The deterministic keyword fallback when the Gemini call fails:
`description.split(' ').join(',')`. -/
def fallbackKeywords (description : String) : String :=
  joinWith "," (splitOnChar ' ' description)

/-- The keyword string the handler searches with: the collaborator's text
trimmed, or the fallback when the collaborator call failed. -/
def expandedKeywords (gemini : Option String) (description : String) : String :=
  match gemini with
  | some t => trimStr t
  | none => fallbackKeywords description

/-- The `POST /api/smart-search` handler (`server.js` lines 320-369).
`gemini` is the text collaborator's outcome (`none`: the
`model.generateContent` promise rejected — which is how a missing or
invalid credential manifests — caught by the inner `try`, falling back to
`fallbackKeywords`).  `search` is the HTTP self-call to `/api/search` made
with `query = keywords` (`none`: the call threw, reaching the outer
`catch` and the 500 exit).  Exactly one search is made, and its data is
returned as `results` verbatim. -/
def smartSearch (gemini : Option String)
    (search : String → Option (List Project))
    (description : Option String) : SmartOut :=
  match description with
  | none => .badRequest "描述不能为空"
  | some d =>
      if d = "" then .badRequest "描述不能为空"
      else
        let keywords := expandedKeywords gemini d
        match search keywords with
        | some results => .success keywords results
        | none => .failure "智能搜索失败，请重试。"

/-! ### Helper lemmas -/

theorem fuzzyStep_none (fuzzy : String → List Project → List Project)
    (l : List Project) : fuzzyStep fuzzy none l = l := rfl

theorem tagStep_none (l : List Project) : tagStep none l = l := rfl

theorem sortResultsA_eq (sort : Option String) (l : List Project) :
    sortResultsA sort l = sortByScore l := by
  unfold sortResultsA
  exact ite_self _

theorem filter_orderedInsert_of_eq (k : Nat) (a : Project) (h : score a = k)
    (l : List Project) :
    (List.orderedInsert scoreGE a l).filter (fun p => score p == k) =
      a :: l.filter (fun p => score p == k) := by
  induction l with
  | nil => simp [List.orderedInsert, h]
  | cons b l ih =>
    by_cases hab : scoreGE a b
    · rw [List.orderedInsert, if_pos hab]
      simp [List.filter_cons, h]
    · rw [List.orderedInsert, if_neg hab]
      have hb : ¬ score b = k := by
        intro hk
        exact hab (le_of_eq (hk.trans h.symm))
      simp [List.filter_cons, hb, ih]

theorem filter_orderedInsert_of_ne (k : Nat) (a : Project) (h : ¬ score a = k)
    (l : List Project) :
    (List.orderedInsert scoreGE a l).filter (fun p => score p == k) =
      l.filter (fun p => score p == k) := by
  induction l with
  | nil => simp [List.orderedInsert, h]
  | cons b l ih =>
    by_cases hab : scoreGE a b
    · rw [List.orderedInsert, if_pos hab]
      simp [List.filter_cons, h]
    · rw [List.orderedInsert, if_neg hab]
      simp [List.filter_cons, ih]

/-- Stability of the final sort: within one score class, `sortByScore`
returns the elements in their incoming relative order. -/
theorem filter_sortByScore (k : Nat) (l : List Project) :
    (sortByScore l).filter (fun p => score p == k) =
      l.filter (fun p => score p == k) := by
  induction l with
  | nil => rfl
  | cons a l ih =>
    unfold sortByScore at ih
    show (List.orderedInsert scoreGE a (List.insertionSort scoreGE l)).filter _ = _
    by_cases h : score a = k
    · rw [filter_orderedInsert_of_eq k a h, ih]
      simp [List.filter_cons, h]
    · rw [filter_orderedInsert_of_ne k a h, ih]
      simp [List.filter_cons, h]

theorem postFetch_nil (fuzzy : String → List Project → List Project)
    (query tags sort : Option String) (hfz : ∀ q, fuzzy q [] = []) :
    postFetch fuzzy query tags sort [] = [] := by
  have hq : fuzzyStep fuzzy query [] = [] := by
    unfold fuzzyStep
    cases query with
    | none => rfl
    | some q =>
      by_cases hq0 : q = "" <;> simp [hq0, hfz]
  have ht : tagStep tags [] = [] := by
    unfold tagStep
    cases tags with
    | none => rfl
    | some t => by_cases h : t = "" <;> simp [h]
  unfold postFetch
  rw [hq, ht, sortResultsA_eq]
  rfl

theorem fuseModel_nil (q : String) : fuseModel q [] = [] := rfl

/-! ### Concrete inputs used by counterexamples and witnesses -/

/-- Two raw GitHub items sharing `id = 1`; both standardize to
`(id, source) = (1, GitHub)`. -/
def dupA : GithubRaw := { id := some 1, full_name := some "a/robot", stargazers_count := some 5 }

/-- Second raw GitHub item with the same id as `dupA`. -/
def dupB : GithubRaw := { id := some 1, full_name := some "b/robot", stargazers_count := some 5 }

/-- Raw item whose name fuzzy-matches "robot" only approximately. -/
def xRaw : GithubRaw := { id := some 1, full_name := some "robots", stargazers_count := some 5 }

/-- Raw item whose name matches "robot" exactly. -/
def yRaw : GithubRaw := { id := some 2, full_name := some "robot", stargazers_count := some 5 }

/-- Raw item carrying the upper-case tag `"ROS"`. -/
def rosRaw : GithubRaw :=
  { id := some 3, full_name := some "ros-pkg", topics := some ["ROS"], stargazers_count := some 1 }

/-- Raw item with tag `"navigation"` and no humanoid-related text. -/
def navRaw : GithubRaw :=
  { id := some 9, full_name := some "nav-stack", topics := some ["navigation"],
    stargazers_count := some 2 }

/-! ### Claims -/

/-- Claim C1, counterexample: with two fetched GitHub records sharing
`(id, source) = (1, GitHub)`, both occurrences reach the response — the
pipeline never deduplicates. -/
theorem dup_id_source_retained :
    (searchHandler fuseModel (some [dupA, dupB]) none none (some "GitHub") none none).2 =
      [standardizeGithubProject dupA, standardizeGithubProject dupB] ∧
    (standardizeGithubProject dupA).id = (standardizeGithubProject dupB).id ∧
    (standardizeGithubProject dupA).source = (standardizeGithubProject dupB).source ∧
    standardizeGithubProject dupA ≠ standardizeGithubProject dupB := by decide

/-- Claim C1, amended: the aggregated list is the plain concatenation of
the per-source normalized results — no deduplication by `(id, source)` is
performed, so the response retains every fetched record (counting
multiplicity) when no query or tag filtering applies. -/
theorem aggregate_concat_length (fuzzy : String → List Project → List Project)
    (gh : Option (List GithubRaw)) (hf : Option (List HFRaw)) (sort : Option String) :
    (mergedResults (some "All") gh hf).length =
      (gh.getD []).length + (hf.getD []).length ∧
    ((searchHandler fuzzy gh hf none (some "All") none sort).2).length =
      (gh.getD []).length + (hf.getD []).length := by
  have hm : (mergedResults (some "All") gh hf).length =
      (gh.getD []).length + (hf.getD []).length := by
    unfold mergedResults
    simp
  refine ⟨hm, ?_⟩
  show (postFetch fuzzy none none sort (mergedResults (some "All") gh hf)).length = _
  unfold postFetch
  rw [fuzzyStep_none, tagStep_none, sortResultsA_eq]
  simpa [sortByScore] using hm

/-- Claim C2: when every upstream fetch fails (both promises reject and
their `.catch` handlers contribute nothing), the handler still responds
with status 200 and the empty JSON array, for any query, source, tag and
sort parameters.  The hypothesis states the one fact used about the
external fuzzy searcher: searching an empty collection returns nothing. -/
theorem search_all_fetches_fail_ok (fuzzy : String → List Project → List Project)
    (query source tags sort : Option String)
    (hfz : ∀ q, fuzzy q [] = []) :
    searchHandler fuzzy none none query source tags sort = (200, []) := by
  have hm : mergedResults source none none = [] := by
    unfold mergedResults
    simp
  unfold searchHandler
  rw [hm, postFetch_nil fuzzy query tags sort hfz]

/-- Witness for C2 at concrete parameters, with the fuzzy collaborator
instantiated by the executable model. -/
theorem search_all_fetches_fail_ok_witness :
    searchHandler fuseModel none none (some "robot") (some "All") (some "a,b") (some "growth") =
      (200, []) :=
  search_all_fetches_fail_ok fuseModel (some "robot") (some "All") (some "a,b") (some "growth")
    fuseModel_nil

/-- Claim C3, counterexample: two merged records with equal popularity
score (5 stars each) leave the final sort in the opposite of their merged
order, because the fuzzy step for query `"robot"` reorders them by match
quality before the sort; so equal-score items do not keep their relative
order from the merged list. -/
theorem final_sort_ties_reordered_by_relevance :
    mergedResults (some "GitHub") (some [xRaw, yRaw]) none =
      [standardizeGithubProject xRaw, standardizeGithubProject yRaw] ∧
    score (standardizeGithubProject xRaw) = score (standardizeGithubProject yRaw) ∧
    (searchHandler fuseModel (some [xRaw, yRaw]) none (some "robot") (some "GitHub")
        none none).2 =
      [standardizeGithubProject yRaw, standardizeGithubProject xRaw] ∧
    standardizeGithubProject xRaw ≠ standardizeGithubProject yRaw := by decide

/-- Claim C3, amended: the final response is stably sorted in
non-increasing popularity score relative to the list that enters the final
sort (the tag-filtered fuzzy output): it is sorted and a permutation of
that list, each score class keeps its incoming relative order, and the
sort step applies the identical comparator for every value of the sort
parameter; when no free-text query and no tags are given, that incoming
order is the merged order itself. -/
theorem final_sort_stable_descending (fuzzy : String → List Project → List Project)
    (query tags sort : Option String) (l : List Project) :
    List.Sorted scoreGE (postFetch fuzzy query tags sort l) ∧
    List.Perm (postFetch fuzzy query tags sort l) (tagStep tags (fuzzyStep fuzzy query l)) ∧
    (∀ k, (postFetch fuzzy query tags sort l).filter (fun p => score p == k) =
      (tagStep tags (fuzzyStep fuzzy query l)).filter (fun p => score p == k)) ∧
    (∀ s s' m, sortResultsA s m = sortResultsA s' m) ∧
    (∀ k, (postFetch fuzzy none none sort l).filter (fun p => score p == k) =
      l.filter (fun p => score p == k)) := by
  refine ⟨?_, ?_, ?_, ?_, ?_⟩
  · unfold postFetch
    rw [sortResultsA_eq]
    exact List.sorted_insertionSort scoreGE _
  · unfold postFetch
    rw [sortResultsA_eq]
    exact List.perm_insertionSort scoreGE _
  · intro k
    unfold postFetch
    rw [sortResultsA_eq]
    exact filter_sortByScore k _
  · intro s s' m
    rw [sortResultsA_eq, sortResultsA_eq]
  · intro k
    unfold postFetch
    rw [fuzzyStep_none, tagStep_none, sortResultsA_eq]
    exact filter_sortByScore k l

/-- Claim C4, counterexample: a project tagged `"ROS"` matches the
requested tag `"ros"` case-insensitively, yet the tag filter (and the full
pipeline) drops it: `Array.prototype.includes` compares exactly. -/
theorem tag_filter_case_sensitive_counterexample :
    (standardizeGithubProject rosRaw).tags = ["ROS"] ∧
    lowerStr "ROS" = lowerStr "ros" ∧
    tagStep (some "ros") [standardizeGithubProject rosRaw] = [] ∧
    (searchHandler fuseModel (some [rosRaw]) none none (some "GitHub") (some "ros")
        none).2 = [] := by decide

/-- Claim C4, amended: with a non-empty comma-separated tags parameter the
filter retains exactly the projects having at least one of their own tags
exactly (case-sensitively) equal to a requested tag; an empty or absent
tags parameter passes the list through unchanged. -/
theorem tag_filter_exact_membership (t : String) (l : List Project) (p : Project) :
    (p ∈ tagStep (some t) l ↔
      p ∈ l ∧ (t = "" ∨ ∃ tag ∈ p.tags, tag ∈ splitOnChar ',' t)) ∧
    tagStep none l = l ∧
    tagStep (some "") l = l := by
  refine ⟨?_, rfl, rfl⟩
  show (p ∈ if t = "" then l
    else l.filter fun p => p.tags.any fun tag => (splitOnChar ',' t).contains tag) ↔ _
  by_cases h : t = ""
  · simp [h]
  · rw [if_neg h]
    simp [List.mem_filter, h, List.any_eq_true, List.contains, List.elem_iff]

/-- Claim C5, counterexample: with the recognized category 人型机器人
(keywords humanoid, bipedal) selected, a fetched project whose name, empty
description and sole tag `"navigation"` match neither keyword (even
case-insensitively, even as substrings) still reaches the response: the
category is only injected into the upstream query, never applied as a
post-fetch filter. -/
theorem category_filter_absent_post_fetch :
    categorySuffix "人型机器人" = " humanoid OR bipedal" ∧
    (searchHandlerC fuseModel (some [navRaw]) none none (some "GitHub") none none
        (some "人型机器人") "2025-10-04" "2025-09-11").2.2 =
      [standardizeGithubProject navRaw] ∧
    (["humanoid", "bipedal"].all fun kw =>
      !(strContainsCI "nav-stack" kw) &&
      ((standardizeGithubProject navRaw).tags.all fun tg => !(strContainsCI tg kw))) = true ∧
    (standardizeGithubProject navRaw).description = none := by decide

/-- Claim C5, amended: a recognized category only augments the upstream
query strings built by `getSearchQuery` (appending its keyword disjunction
before the mandatory `robotics` anchor); the post-fetch pipeline is
independent of the category, and an absent or unrecognized category leaves
even the upstream query unchanged. -/
theorem category_only_upstream_query (fuzzy : String → List Project → List Project)
    (gh : Option (List GithubRaw)) (hf : Option (List HFRaw))
    (query source tags sort rt rt' : Option String) (d7 d30 : String) :
    (searchHandlerC fuzzy gh hf query source tags sort rt d7 d30).2 =
      (searchHandlerC fuzzy gh hf query source tags sort rt' d7 d30).2 ∧
    getSearchQuery (some "人型机器人") (some "grasp") = "grasp humanoid OR bipedal robotics" ∧
    (∀ q, getSearchQuery (some "未知类型") q = getSearchQuery none q) := by
  refine ⟨rfl, by decide, fun q => rfl⟩

/-- Claim C6, counterexample: the expanded-keyword search returns zero
results while a search with the raw description would return one project,
yet the handler responds with the empty result list of the single search
it made — no second search with the raw description happens. -/
theorem smart_search_no_zero_result_fallback :
    smartSearch (some "expanded")
      (fun q => some (if q = "robot arm" then [standardizeGithubProject rosRaw] else []))
      (some "robot arm") = .success "expanded" [] ∧
    (fun q => some (if q = "robot arm" then [standardizeGithubProject rosRaw] else [])
      : String → Option (List Project)) "robot arm" =
        some [standardizeGithubProject rosRaw] ∧
    ([] : List Project) ≠ [standardizeGithubProject rosRaw] := by decide

/-- Claim C6, amended: the handler performs exactly one search, with the
expanded keyword string: its response depends on the search function only
at that string, and when that search succeeds its result list is returned
verbatim — zero results included. -/
theorem smart_search_single_pass (gemini : Option String) (d : String)
    (search search' : String → Option (List Project))
    (hd : d ≠ "")
    (hagree : search (expandedKeywords gemini d) = search' (expandedKeywords gemini d)) :
    smartSearch gemini search (some d) = smartSearch gemini search' (some d) ∧
    (∀ r, search (expandedKeywords gemini d) = some r →
      smartSearch gemini search (some d) = .success (expandedKeywords gemini d) r) := by
  show ((if d = "" then SmartOut.badRequest "描述不能为空"
      else match search (expandedKeywords gemini d) with
        | some results => SmartOut.success (expandedKeywords gemini d) results
        | none => SmartOut.failure "智能搜索失败，请重试。") =
    (if d = "" then SmartOut.badRequest "描述不能为空"
      else match search' (expandedKeywords gemini d) with
        | some results => SmartOut.success (expandedKeywords gemini d) results
        | none => SmartOut.failure "智能搜索失败，请重试。")) ∧ _
  rw [if_neg hd, if_neg hd, hagree]
  refine ⟨rfl, fun r hr => ?_⟩
  show (if d = "" then SmartOut.badRequest "描述不能为空"
      else match search (expandedKeywords gemini d) with
        | some results => SmartOut.success (expandedKeywords gemini d) results
        | none => SmartOut.failure "智能搜索失败，请重试。") = _
  rw [if_neg hd, hagree, hr]

/-- Witness for the amended C6 at concrete inputs. -/
theorem smart_search_single_pass_witness :
    smartSearch (some "k") (fun _ => some []) (some "x") = .success "k" [] :=
  (smart_search_single_pass (some "k") "x" (fun _ => some []) (fun _ => some [])
    (by decide) rfl).2 [] rfl

/-- Claim C7, counterexample: with the text collaborator failing — which is
how the unconfigured credential manifests, the `generateContent` promise
rejecting into the inner `catch` — a non-empty description yields a 200
success response built from the fallback keywords, not a 500 error. -/
theorem missing_credential_not_fatal :
    (smartSearch none (fun _ => some []) (some "x")).statusCode = 200 ∧
    smartSearch none (fun _ => some []) (some "x") = .success "x" [] ∧
    (fallbackKeywords "x") = "x" := by decide

/-- Claim C7, amended: a failing text collaborator (including the missing
credential case) is absorbed by the deterministic fallback — the keywords
become the description's space-separated words joined by commas, the
upstream search still runs, and the endpoint answers 200 when that search
succeeds; a 500 arises only when the search self-call itself throws. -/
theorem missing_credential_fallback (d : String)
    (search : String → Option (List Project)) (hd : d ≠ "") :
    (∀ r, search (fallbackKeywords d) = some r →
      smartSearch none search (some d) = .success (fallbackKeywords d) r ∧
      (smartSearch none search (some d)).statusCode = 200) ∧
    (search (fallbackKeywords d) = none →
      (smartSearch none search (some d)).statusCode = 500) := by
  have hform : smartSearch none search (some d) =
      match search (fallbackKeywords d) with
      | some results => SmartOut.success (fallbackKeywords d) results
      | none => SmartOut.failure "智能搜索失败，请重试。" := by
    show (if d = "" then SmartOut.badRequest "描述不能为空"
      else match search (fallbackKeywords d) with
        | some results => SmartOut.success (fallbackKeywords d) results
        | none => SmartOut.failure "智能搜索失败，请重试。") = _
    rw [if_neg hd]
  constructor
  · intro r hr
    rw [hform, hr]
    exact ⟨rfl, rfl⟩
  · intro hr
    rw [hform, hr]
    rfl

/-- Witness for the amended C7 at concrete inputs. -/
theorem missing_credential_fallback_witness :
    smartSearch none (fun _ => some [standardizeGithubProject rosRaw]) (some "y") =
      .success (fallbackKeywords "y") [standardizeGithubProject rosRaw] :=
  ((missing_credential_fallback "y" (fun _ => some [standardizeGithubProject rosRaw])
    (by decide)).1 [standardizeGithubProject rosRaw] rfl).1

/-- Claim C8, counterexample: a successful smart-search response (here with
one result, where the claim requires 3-5 follow-up keywords) carries
exactly the fields `keywords` and `results` — there is no `suggestions`
field at all. -/
theorem smart_search_no_suggestions :
    smartSearch (some "k") (fun _ => some [standardizeGithubProject rosRaw]) (some "x") =
      .success "k" [standardizeGithubProject rosRaw] ∧
    (smartSearch (some "k") (fun _ => some [standardizeGithubProject rosRaw])
        (some "x")).bodyKeys = ["keywords", "results"] ∧
    ¬ ("suggestions" ∈ (smartSearch (some "k")
        (fun _ => some [standardizeGithubProject rosRaw]) (some "x")).bodyKeys) := by decide

/-- Claim C8, amended: every successful smart-search response is the object
with exactly the fields `keywords` (the expanded keyword string) and
`results` (the search's project list); no `suggestions` field exists on
any exit. -/
theorem smart_search_body_fields (gemini : Option String) (d : String)
    (search : String → Option (List Project)) (r : List Project)
    (hd : d ≠ "") (hs : search (expandedKeywords gemini d) = some r) :
    (smartSearch gemini search (some d)).bodyKeys = ["keywords", "results"] ∧
    (∀ out : SmartOut, "suggestions" ∉ out.bodyKeys) := by
  constructor
  · have hform : smartSearch gemini search (some d) =
        SmartOut.success (expandedKeywords gemini d) r := by
      show (if d = "" then SmartOut.badRequest "描述不能为空"
        else match search (expandedKeywords gemini d) with
          | some results => SmartOut.success (expandedKeywords gemini d) results
          | none => SmartOut.failure "智能搜索失败，请重试。") = _
      rw [if_neg hd, hs]
    rw [hform]
    rfl
  · intro out
    cases out <;> simp [SmartOut.bodyKeys]

/-- Witness for the amended C8 at concrete inputs. -/
theorem smart_search_body_fields_witness :
    (smartSearch (some "kw") (fun _ => some []) (some "z")).bodyKeys =
      ["keywords", "results"] :=
  (smart_search_body_fields (some "kw") "z" (fun _ => some []) [] (by decide) rfl).1

/-- Claim C9, counterexample: a raw record with no description and no
popularity count standardizes to a Project whose `description` stays
absent (not the empty string) and whose `stars`/`downloads` stay absent
(not zero) — only `tags` is defaulted. -/
theorem normalizer_missing_fields_not_defaulted :
    (standardizeGithubProject {}).description = none ∧
    (standardizeGithubProject {}).description ≠ some "" ∧
    (standardizeGithubProject {}).stars = none ∧
    (standardizeGithubProject {}).stars ≠ some 0 ∧
    (standardizeGithubProject {}).tags = [] ∧
    (standardizeHuggingFaceModel {}).description = none ∧
    (standardizeHuggingFaceModel {}).downloads = none ∧
    (standardizeHuggingFaceModel {}).tags = [] := by decide

/-- Claim C9, amended: each normalizer totally maps any raw record to
exactly one Project; missing tags become the empty list, but a missing
description is passed through as absent and a missing popularity count
stays absent — it is only the ranking score that treats it as zero. -/
theorem normalizer_fields (g : GithubRaw) (h : HFRaw) :
    (standardizeGithubProject g).tags = g.topics.getD [] ∧
    (standardizeHuggingFaceModel h).tags = h.tags.getD [] ∧
    (standardizeGithubProject g).description = g.description ∧
    (standardizeHuggingFaceModel h).description = h.pipeline_tag ∧
    score (standardizeGithubProject g) = g.stargazers_count.getD 0 ∧
    score (standardizeHuggingFaceModel h) = h.downloads.getD 0 := by
  refine ⟨rfl, rfl, rfl, rfl, ?_, ?_⟩
  · show numOr g.stargazers_count (numOr none 0) = _
    cases hs : g.stargazers_count with
    | none => rfl
    | some n => cases n <;> rfl
  · show numOr none (numOr h.downloads 0) = _
    cases hs : h.downloads with
    | none => rfl
    | some n => cases n <;> rfl

/-- Claim C10: when the source parameter is absent or unrecognized, both
source guards are false — no upstream fetch is issued — and the handler
responds 200 with the empty array whatever the other parameters and
whatever data the (never-issued) fetches would have carried. -/
theorem unknown_source_empty_response (fuzzy : String → List Project → List Project)
    (gh : Option (List GithubRaw)) (hf : Option (List HFRaw))
    (query tags sort source : Option String)
    (h1 : source ≠ some "All") (h2 : source ≠ some "GitHub")
    (h3 : source ≠ some "Hugging Face")
    (hfz : ∀ q, fuzzy q [] = []) :
    enabledSources source = [] ∧
    searchHandler fuzzy gh hf query source tags sort = (200, []) := by
  have hc1 : ¬ (source = some "All" ∨ source = some "GitHub") := by
    rintro (h | h)
    · exact h1 h
    · exact h2 h
  have hc2 : ¬ (source = some "All" ∨ source = some "Hugging Face") := by
    rintro (h | h)
    · exact h1 h
    · exact h3 h
  constructor
  · unfold enabledSources
    rw [if_neg hc1, if_neg hc2]
    rfl
  · have hm : mergedResults source gh hf = [] := by
      unfold mergedResults
      rw [if_neg hc1, if_neg hc2]
      rfl
    unfold searchHandler
    rw [hm, postFetch_nil fuzzy query tags sort hfz]

/-- Witness for C10 at concrete inputs (an unrecognized source value with
non-empty would-be fetch data). -/
theorem unknown_source_empty_response_witness :
    enabledSources (some "GitLab") = [] ∧
    searchHandler fuseModel (some [dupA]) (some []) (some "q") (some "GitLab")
      (some "a") (some "growth") = (200, []) :=
  unknown_source_empty_response fuseModel (some [dupA]) (some []) (some "q") (some "a")
    (some "growth") (some "GitLab") (by decide) (by decide) (by decide) fuseModel_nil

end RobotSearch
